import Mathlib

/-!
# PDF-Merger: the page script `script.js`

A shallow embedding of the `DOMContentLoaded` closure of `script.js`: its two
variables (`files`, `PDFDocument`), the DOM elements it reads and writes, and
its event handlers, each as a function on an explicit state.

The PDF library (`pdf-lib`) is not part of the repository.  It is modelled the
way the specification describes it: a document is the list of its pages,
`load` yields a page list, `copyPages` selects the pages at the given indices
and `addPage` appends at the end.  Each asynchronous library call may reject;
which calls do is part of the library value.

The merge handler is asynchronous.  It is split at its first `await` into
`mergeStart` and `mergeResume`, so that other events can come between the two;
`mergeBtnClick` is the handler run from the click to the end without one.
-/

namespace PDFMerger

/-! ## The external collaborators -/

/-- A page object of a PDF document (opaque to the script). -/
abbrev Page := String

/-- The contents of an `ArrayBuffer` / `Uint8Array`. -/
abbrev Bytes := List Nat

/-- A document of the library: the list of its pages, in order. -/
abbrev Doc := List Page

/-- A `File` as the script sees it: `file.name`, `file.type` and the outcome of
`await file.arrayBuffer()` (the bytes, or the message of the rejection). -/
structure File where
  name : String
  type : String
  arrayBuffer : Except String Bytes

/-- The class `pdfLib.PDFDocument` of the library.  `createError` is the message
`create()` rejects with, if it does; `load` is `PDFDocument.load`; `copyError src`
is the message `copyPages(src, _)` rejects with, if it does; `save` is
`doc.save()`. -/
structure PDFDocumentAPI where
  createError : Option String
  load : Bytes → Except String Doc
  copyError : Doc → Option String
  save : Doc → Except String Bytes

/-- The static `PDFDocument.create()`: a fresh document without pages. -/
def PDFDocumentAPI.create (lib : PDFDocumentAPI) : Except String Doc :=
  match lib.createError with
  | some e => .error e
  | none => .ok []

/-- The method `target.copyPages(src, indices)`: the pages of `src` at `indices`,
in the order of `indices`. -/
def PDFDocumentAPI.copyPages (lib : PDFDocumentAPI) (src : Doc) (indices : List Nat) :
    Except String (List Page) :=
  match lib.copyError src with
  | some e => .error e
  | none =>
    match indices.mapM (fun i => src[i]?) with
    | some pages => .ok pages
    | none => .error "Cannot read properties of undefined (reading 'node')"

/-- The method `doc.getPageCount()`. -/
def getPageCount (doc : Doc) : Nat := doc.length

/-- The method `doc.addPage(page)`: the page goes last. -/
def addPage (doc : Doc) (page : Page) : Doc := doc ++ [page]

/-- A call of the script into the library. -/
inductive LibCall
  | create
  | load (arrayBuffer : Bytes)
  | copyPages (src : Doc) (indices : List Nat)
  | addPage (page : Page)
  | save (doc : Doc)
  deriving DecidableEq, Repr

/-- The value of `downloadLink.href`: a literal such as `"#"`, or the object URL
made by `URL.createObjectURL(new Blob([bytes], { type }))`. -/
inductive Url
  | literal (s : String)
  | object (blobPart : Bytes) (blobType : String)
  deriving DecidableEq, Repr

/-! ## The state -/

/-- A `<button>`: the two properties the script touches. -/
structure Button where
  disabled : Bool
  textContent : String
  deriving DecidableEq, Repr

/-- The element `#statusMessage`. -/
structure StatusMessage where
  textContent : String
  className : String
  deriving DecidableEq, Repr

/-- The element `#downloadLink`; `display` is `style.display`. -/
structure DownloadLink where
  href : Url
  download : String
  display : String
  deriving DecidableEq, Repr

/-- The element `#dropZone`: the text of its `<p>` and whether its class list
holds `dragover`. -/
structure DropZone where
  pText : String
  dragover : Bool
  deriving DecidableEq, Repr

/-- The DOM elements of lines 3-8. `pdfInputFiles` is `pdfInput.files`. -/
structure Dom where
  mergeBtn : Button
  resetBtn : Button
  dropZone : DropZone
  pdfInputFiles : List File
  statusMessage : StatusMessage
  downloadLink : DownloadLink

/-- The state of the page: the DOM, the closure variables `files` and
`PDFDocument` (`none` is `undefined`), what went to `console.error`, the calls
made into the library, and for each invocation of the merge handler that is
suspended at an `await` the `originalText` it captured. -/
structure State extends Dom where
  files : List File
  PDFDocument : Option PDFDocumentAPI
  console : List (String × String)
  calls : List LibCall
  pending : List String

/-- The state when `DOMContentLoaded` fires (lines 10-11), over the DOM of the page. -/
def pageLoad (dom : Dom) : State :=
  { toDom := dom, files := [], PDFDocument := none, console := [], calls := [], pending := [] }

/-- The call `console.error(label, error)`. -/
def consoleError (label message : String) (s : State) : State :=
  { s with console := s.console ++ [(label, message)] }

/-- Records a call into the library. -/
def logCall (c : LibCall) (s : State) : State :=
  { s with calls := s.calls ++ [c] }

/-! ## The functions of the script -/

/-- Lines 43-46. -/
def showStatus (message type : String) (s : State) : State :=
  { s with statusMessage := { textContent := message, className := type } }

/-- Lines 49-55. -/
def updateUI (s : State) : State :=
  { s with
    mergeBtn := { s.mergeBtn with disabled := s.files.length == 0 || s.PDFDocument.isNone }
    resetBtn := { s.resetBtn with disabled := s.files.length == 0 }
    dropZone := { s.dropZone with
      pText := if s.files.length > 0 then toString s.files.length ++ " PDF(s) selected"
               else "Drag & Drop PDFs here or click to upload" } }

/-- The `catch` of `initializePDFLibrary`, lines 24-29. -/
def initializeCatch (message : String) (s : State) : State :=
  let s := consoleError "PDF library error:" message s
  let s := showStatus "PDF tools unavailable. Please refresh the page." "error" s
  { s with
    mergeBtn := { s.mergeBtn with disabled := true }
    resetBtn := { s.resetBtn with disabled := true } }

/-- Lines 14-30, over `window.pdfLib` and `window.PDFLib`. -/
def initializePDFLibrary (windowPdfLib windowPDFLib : Option PDFDocumentAPI) (s : State) :
    State :=
  match windowPdfLib <|> windowPDFLib with
  | none => initializeCatch "PDF library not loaded" s
  | some pdfLib =>
    let s := logCall .create s
    match pdfLib.create with
    | .error e => initializeCatch e s
    | .ok testDoc =>
      let s := logCall (.save testDoc) s
      match pdfLib.save testDoc with
      | .error e => initializeCatch e s
      | .ok _ => showStatus "Ready to merge PDFs" "success" { s with PDFDocument := some pdfLib }

/-- Lines 33-40. -/
def resetApp (s : State) : State :=
  let s := { s with files := [], pdfInputFiles := [] }
  let s := { s with downloadLink := { s.downloadLink with display := "none", href := .literal "#" } }
  let s := updateUI s
  showStatus "Ready to merge PDFs" "info" s

/-- The `change` handler of `pdfInput`, lines 58-62; `selected` is what the user
picked, which the browser has put in `pdfInput.files`. -/
def pdfInputChange (selected : List File) (s : State) : State :=
  let s := { s with pdfInputFiles := selected }
  let s := { s with files := s.pdfInputFiles }
  let s := updateUI s
  showStatus (toString s.files.length ++ " PDF(s) selected") "info" s

/-- The `dragover` handler, lines 67-70. -/
def dropZoneDragover (s : State) : State :=
  { s with dropZone := { s.dropZone with dragover := true } }

/-- The `dragleave` handler, lines 72-74. -/
def dropZoneDragleave (s : State) : State :=
  { s with dropZone := { s.dropZone with dragover := false } }

/-- The `drop` handler, lines 76-90; `dropped` is `e.dataTransfer.files`. -/
def dropZoneDrop (dropped : List File) (s : State) : State :=
  let s := { s with dropZone := { s.dropZone with dragover := false } }
  let s := { s with files := dropped.filter (fun file => file.type == "application/pdf") }
  let s := { s with pdfInputFiles := s.files }
  let s := updateUI s
  showStatus (toString s.files.length ++ " PDF(s) selected") "info" s

/-- The local variables of one run of the merge handler. -/
structure MergeLocals where
  mergedPdfDoc : Doc
  totalPages : Nat
  deriving DecidableEq, Repr

/-- The inner `try` block, lines 111-119, for the file at `index`. -/
def processFile (lib : PDFDocumentAPI) (index : Nat) (file : File) (loc : MergeLocals)
    (s : State) : Except String MergeLocals × State :=
  let s := showStatus ("Processing " ++ toString (index + 1) ++ " of " ++
    toString s.files.length ++ ": " ++ file.name) "info" s
  match file.arrayBuffer with
  | .error e => (.error e, s)
  | .ok arrayBuffer =>
    let s := logCall (.load arrayBuffer) s
    match lib.load arrayBuffer with
    | .error e => (.error e, s)
    | .ok pdfDoc =>
      let pageCount := getPageCount pdfDoc
      let totalPages := loc.totalPages + pageCount
      let pageIndices := List.range pageCount
      let s := logCall (.copyPages pdfDoc pageIndices) s
      match lib.copyPages pdfDoc pageIndices with
      | .error e => (.error e, s)
      | .ok copiedPages =>
        (.ok { mergedPdfDoc := copiedPages.foldl addPage loc.mergedPdfDoc, totalPages := totalPages },
         copiedPages.foldl (fun s page => logCall (.addPage page) s) s)

/-- The `for` loop, lines 109-124, over the entries of the array from `index` on. -/
def mergeLoop (lib : PDFDocumentAPI) :
    Nat → List File → MergeLocals → State → Except String MergeLocals × State
  | _, [], loc, s => (.ok loc, s)
  | index, file :: rest, loc, s =>
    match processFile lib index file loc s with
    | (.error err, s) =>
      let s := consoleError ("Error processing " ++ file.name ++ ":") err s
      (.error ("Failed to process \"" ++ file.name ++ "\". It may be corrupted."), s)
    | (.ok loc, s) => mergeLoop lib (index + 1) rest loc s

/-- The outer `try` block, lines 106-134; `now` is
`new Date().toISOString().slice(0,10)`.  With `PDFDocument` undefined the call
of `create` would throw a `TypeError`; the guard of line 97 keeps a merge from
getting here in that case. -/
def mergeTry (now : String) (s : State) : Except String Unit × State :=
  match s.PDFDocument with
  | none => (.error "Cannot read properties of undefined (reading 'create')", s)
  | some lib =>
    let s := logCall .create s
    match lib.create with
    | .error e => (.error e, s)
    | .ok mergedPdfDoc =>
      match mergeLoop lib 0 s.files { mergedPdfDoc := mergedPdfDoc, totalPages := 0 } s with
      | (.error e, s) => (.error e, s)
      | (.ok loc, s) =>
        let s := logCall (.save loc.mergedPdfDoc) s
        match lib.save loc.mergedPdfDoc with
        | .error e => (.error e, s)
        | .ok mergedPdfBytes =>
          let url := Url.object mergedPdfBytes "application/pdf"
          let s := { s with downloadLink :=
            { href := url, download := "merged_" ++ now ++ ".pdf", display := "inline-block" } }
          (.ok (), showStatus ("Success! Merged " ++ toString s.files.length ++ " files (" ++
            toString loc.totalPages ++ " pages)") "success" s)

/-- The merge handler up to its first `await`, lines 97-103: the guard, then the
buttons, the button text and the status.  The invocation is then suspended. -/
def mergeStart (s : State) : State :=
  if s.files.length == 0 || s.PDFDocument.isNone then s
  else
    let originalText := s.mergeBtn.textContent
    let s := { s with pending := s.pending ++ [originalText] }
    let s := { s with mergeBtn := { s.mergeBtn with disabled := true } }
    let s := { s with resetBtn := { s.resetBtn with disabled := true } }
    let s := { s with mergeBtn := { s.mergeBtn with textContent := "Merging..." } }
    showStatus "Merging PDFs..." "info" s

/-- The rest of the merge handler, lines 105-143, for the invocation that
captured `originalText`: the `try` block, the `catch` and the `finally`. -/
def mergeResume (originalText now : String) (s : State) : State :=
  let s :=
    match mergeTry now s with
    | (.ok _, s) => s
    | (.error message, s) =>
      showStatus ("Error: " ++ message) "error" (consoleError "Merge failed:" message s)
  { s with
    mergeBtn := { disabled := s.files.length == 0, textContent := originalText }
    resetBtn := { s.resetBtn with disabled := s.files.length == 0 } }

/-- The suspended invocation number `k` of the merge handler runs to its end.
Everything after the first `await` is taken as one step: `files` and
`PDFDocument` are read when the step runs, as they are by `files.entries()`,
`files.length` and the `finally`. -/
def mergeSettle (k : Nat) (now : String) (s : State) : State :=
  match s.pending[k]? with
  | none => s
  | some originalText => mergeResume originalText now { s with pending := s.pending.eraseIdx k }

/-- The merge handler, lines 96-144, run from the click to its end with no other
event in between. -/
def mergeBtnClick (now : String) (s : State) : State :=
  if s.files.length == 0 || s.PDFDocument.isNone then s
  else mergeSettle s.pending.length now (mergeStart s)

/-! ## The page as a transition system -/

/-- What can happen to the page. -/
inductive Event
  | libraryInit (windowPdfLib windowPDFLib : Option PDFDocumentAPI)
  | change (selected : List File)
  | dragover
  | dragleave
  | drop (dropped : List File)
  | resetClick
  | mergeClick
  | mergeDone (k : Nat) (now : String)

/-- One event. A disabled button does not fire `click`. -/
def step (s : State) : Event → State
  | .libraryInit a b => initializePDFLibrary a b s
  | .change selected => pdfInputChange selected s
  | .dragover => dropZoneDragover s
  | .dragleave => dropZoneDragleave s
  | .drop dropped => dropZoneDrop dropped s
  | .resetClick => if s.resetBtn.disabled then s else resetApp s
  | .mergeClick => if s.mergeBtn.disabled then s else mergeStart s
  | .mergeDone k now => mergeSettle k now s

/-- A sequence of events, first to last. -/
def run (s : State) (events : List Event) : State := events.foldl step s

/-! ## The merge as a function of its inputs

The loop and the handler thread the whole state.  The definitions below give
what they compute as functions of the library and the file list; the theorems
of the next part prove that the handlers compute exactly this. -/

/-- The document a file contributes: what `load` yields for its bytes, when the
bytes are read, the load succeeds and `copyPages` accepts the document; otherwise
the message of the first rejection. -/
def inputDoc (lib : PDFDocumentAPI) (file : File) : Except String Doc :=
  match file.arrayBuffer with
  | .error e => .error e
  | .ok arrayBuffer =>
    match lib.load arrayBuffer with
    | .error e => .error e
    | .ok pdfDoc =>
      match lib.copyError pdfDoc with
      | some e => .error e
      | none => .ok pdfDoc

/-- The library calls the inner `try` block makes for a file. -/
def fileCalls (lib : PDFDocumentAPI) (file : File) : List LibCall :=
  match file.arrayBuffer with
  | .error _ => []
  | .ok arrayBuffer =>
    LibCall.load arrayBuffer ::
      match lib.load arrayBuffer with
      | .error _ => []
      | .ok pdfDoc =>
        LibCall.copyPages pdfDoc (List.range pdfDoc.length) ::
          match lib.copyError pdfDoc with
          | some _ => []
          | none => pdfDoc.map LibCall.addPage

/-- The status shown on entering the inner `try` block, line 111. -/
def processingStatus (index n : Nat) (name : String) : StatusMessage :=
  { textContent := "Processing " ++ toString (index + 1) ++ " of " ++ toString n ++ ": " ++ name
    className := "info" }

/-- The message of the error thrown at line 122. -/
def failedMessage (name : String) : String :=
  "Failed to process \"" ++ name ++ "\". It may be corrupted."

/-- The locals after the pages of `doc` went in. -/
def MergeLocals.add (loc : MergeLocals) (doc : Doc) : MergeLocals :=
  { mergedPdfDoc := loc.mergedPdfDoc ++ doc, totalPages := loc.totalPages + doc.length }

/-- What the loop returns or throws, as a function of the files alone. -/
def loopResult (lib : PDFDocumentAPI) : List File → MergeLocals → Except String MergeLocals
  | [], loc => .ok loc
  | file :: rest, loc =>
    match inputDoc lib file with
    | .error _ => .error (failedMessage file.name)
    | .ok doc => loopResult lib rest (loc.add doc)

/-- The library calls of the loop: those of each file up to the first that fails. -/
def loopCalls (lib : PDFDocumentAPI) : List File → List LibCall
  | [] => []
  | file :: rest =>
    fileCalls lib file ++
      match inputDoc lib file with
      | .error _ => []
      | .ok _ => loopCalls lib rest

/-- What the loop sends to `console.error`, line 121. -/
def loopConsole (lib : PDFDocumentAPI) : List File → List (String × String)
  | [] => []
  | file :: rest =>
    match inputDoc lib file with
    | .error e => [("Error processing " ++ file.name ++ ":", e)]
    | .ok _ => loopConsole lib rest

/-- The status the loop leaves. -/
def loopStatus (lib : PDFDocumentAPI) (n : Nat) : Nat → List File → StatusMessage → StatusMessage
  | _, [], m => m
  | index, file :: rest, _ =>
    match inputDoc lib file with
    | .error _ => processingStatus index n file.name
    | .ok _ => loopStatus lib n (index + 1) rest (processingStatus index n file.name)

/-- What one run of the `try`/`catch` leaves behind. -/
structure MergeEffect where
  statusMessage : StatusMessage
  downloadLink : Option DownloadLink
  calls : List LibCall
  console : List (String × String)

/-- The `catch` of the merge handler, lines 136-138, after the calls `calls` and
the console output `console`. -/
def MergeEffect.caught (message : String) (calls : List LibCall)
    (console : List (String × String)) : MergeEffect :=
  { statusMessage := { textContent := "Error: " ++ message, className := "error" }
    downloadLink := none
    calls := calls
    console := console ++ [("Merge failed:", message)] }

/-- The `try`/`catch` of the merge handler as a function of the library, the
files and the date. -/
def mergeEffect (lib : PDFDocumentAPI) (files : List File) (now : String) : MergeEffect :=
  match lib.createError with
  | some e => .caught e [.create] []
  | none =>
    match loopResult lib files { mergedPdfDoc := [], totalPages := 0 } with
    | .error e => .caught e (.create :: loopCalls lib files) (loopConsole lib files)
    | .ok loc =>
      match lib.save loc.mergedPdfDoc with
      | .error e =>
        .caught e (.create :: loopCalls lib files ++ [.save loc.mergedPdfDoc]) (loopConsole lib files)
      | .ok mergedPdfBytes =>
        { statusMessage :=
            { textContent := "Success! Merged " ++ toString files.length ++ " files (" ++
                toString loc.totalPages ++ " pages)"
              className := "success" }
          downloadLink := some
            { href := .object mergedPdfBytes "application/pdf"
              download := "merged_" ++ now ++ ".pdf"
              display := "inline-block" }
          calls := .create :: loopCalls lib files ++ [.save loc.mergedPdfDoc]
          console := loopConsole lib files }

/-- The state after the `try`, `catch` and `finally` of a run with effect `eff`. -/
def MergeEffect.apply (eff : MergeEffect) (originalText : String) (s : State) : State :=
  { s with
    statusMessage := eff.statusMessage
    downloadLink := eff.downloadLink.getD s.downloadLink
    calls := s.calls ++ eff.calls
    console := s.console ++ eff.console
    mergeBtn := { disabled := s.files.length == 0, textContent := originalText }
    resetBtn := { s.resetBtn with disabled := s.files.length == 0 } }

/-- Every file of `files` is read, loaded and copied without a rejection, and
`docs` are the documents loaded, file by file. -/
def AllLoad (lib : PDFDocumentAPI) (files : List File) (docs : List Doc) : Prop :=
  List.Forall₂ (fun file doc => inputDoc lib file = .ok doc) files docs

/-- The pages handed to `addPage` in a sequence of library calls, in call order. -/
def addedPages (calls : List LibCall) : List Page :=
  calls.filterMap fun
    | .addPage page => some page
    | _ => none

/-- A call of `save`. -/
def LibCall.isSave : LibCall → Bool
  | .save _ => true
  | _ => false

/-! ## Sample values -/

/-- A library that parses two byte strings, a two-page and a three-page document,
and rejects every other input. -/
def sampleLib : PDFDocumentAPI :=
  { createError := none
    load := fun bytes =>
      match bytes with
      | [1] => .ok ["a1", "a2"]
      | [2] => .ok ["b1", "b2", "b3"]
      | _ => .error "No PDF header found"
    copyError := fun _ => none
    save := fun doc => .ok (doc.map String.length) }

/-- The library `sampleLib`, except that `save` rejects a document that has pages. -/
def sampleLibSaveRejects : PDFDocumentAPI :=
  { sampleLib with
    save := fun doc => if doc.isEmpty then .ok [] else .error "Failed to serialize the document" }

/-- The library `sampleLib`, except that `load` rejects every input with `cause`. -/
def sampleLibLoadRejects (cause : String) : PDFDocumentAPI :=
  { sampleLib with load := fun _ => .error cause }

/-- A page as it may be at load: both buttons disabled, no download shown. -/
def sampleDom : Dom :=
  { mergeBtn := { disabled := true, textContent := "Merge PDFs" }
    resetBtn := { disabled := true, textContent := "Reset" }
    dropZone := { pText := "Drag & Drop PDFs here or click to upload", dragover := false }
    pdfInputFiles := []
    statusMessage := { textContent := "", className := "" }
    downloadLink := { href := .literal "#", download := "", display := "none" } }

/-- A two-page PDF file. -/
def aPdf : File := { name := "a.pdf", type := "application/pdf", arrayBuffer := .ok [1] }

/-- A three-page PDF file. -/
def bPdf : File := { name := "b.pdf", type := "application/pdf", arrayBuffer := .ok [2] }

/-- A file with the PDF type whose bytes are not a PDF. -/
def badPdf : File := { name := "bad.pdf", type := "application/pdf", arrayBuffer := .ok [9] }

/-- A text file. -/
def notesTxt : File := { name := "notes.txt", type := "text/plain", arrayBuffer := .ok [3] }

/-- The page once the library `lib` passed its self-test and `files` were picked. -/
def sampleState (lib : PDFDocumentAPI) (files : List File) : State :=
  run (pageLoad sampleDom) [.libraryInit none (some lib), .change files]

/-- The resolution of `initializePDFLibrary`, as opposed to what the user does
and to the completion of a merge. -/
def Event.isLibraryInit : Event → Bool
  | .libraryInit _ _ => true
  | _ => false

/-- The self-test of lines 16-20 succeeds: the library is there, `create` gives
a document and its `save` does not reject. -/
def selfTestPasses (windowPdfLib windowPDFLib : Option PDFDocumentAPI) : Bool :=
  match windowPdfLib <|> windowPDFLib with
  | none => false
  | some pdfLib =>
    match pdfLib.create with
    | .error _ => false
    | .ok testDoc =>
      match pdfLib.save testDoc with
      | .error _ => false
      | .ok _ => true

/-- A library whose `create` rejects. -/
def sampleLibCreateRejects : PDFDocumentAPI :=
  { sampleLib with createError := some "out of memory" }

/-- The page is consistent: an invocation of the merge handler is suspended only
if the library handle is set, and the merge button is enabled only if there are
files and the handle is set. -/
def Consistent (s : State) : Prop :=
  (s.pending ≠ [] → s.PDFDocument ≠ none) ∧
    (s.mergeBtn.disabled = false → s.files ≠ [] ∧ s.PDFDocument ≠ none)

/-! ## The handlers compute the functions above -/

theorem mapM_getElem?_range' (l : List Page) :
    ∀ pre : List Page, (List.range' pre.length l.length).mapM (fun i => (pre ++ l)[i]?) = some l := by
  induction l with
  | nil => intro pre; rfl
  | cons a l ih =>
    intro pre
    have h := ih (pre ++ [a])
    simp only [List.length_append, List.length_singleton, List.append_assoc, List.singleton_append] at h
    have h0 : (pre ++ a :: l)[pre.length]? = some a := by
      rw [List.getElem?_append_right (Nat.le_refl _)]; simp
    rw [List.length_cons, List.range'_succ, List.mapM_cons, h, h0]
    rfl

theorem copyPages_all (lib : PDFDocumentAPI) (doc : Doc) (h : lib.copyError doc = none) :
    lib.copyPages doc (List.range (getPageCount doc)) = .ok doc := by
  have := mapM_getElem?_range' doc []
  simp only [List.length_nil, List.nil_append] at this
  rw [PDFDocumentAPI.copyPages, h, getPageCount, List.range_eq_range', this]

theorem foldl_addPage (pages : List Page) : ∀ doc : Doc, pages.foldl addPage doc = doc ++ pages := by
  induction pages with
  | nil => simp
  | cons p ps ih => intro doc; simp [ih, addPage]

theorem foldl_logCall (pages : List Page) :
    ∀ s : State, pages.foldl (fun s page => logCall (.addPage page) s) s =
      { s with calls := s.calls ++ pages.map LibCall.addPage } := by
  induction pages with
  | nil => simp
  | cons p ps ih => intro s; rw [List.foldl_cons, ih]; simp [logCall]

theorem processFile_eq (lib : PDFDocumentAPI) (index : Nat) (file : File) (loc : MergeLocals)
    (s : State) :
    processFile lib index file loc s =
      ((match inputDoc lib file with
        | .error e => .error e
        | .ok doc => .ok (loc.add doc)),
       { s with
         statusMessage := processingStatus index s.files.length file.name
         calls := s.calls ++ fileCalls lib file }) := by
  unfold processFile inputDoc fileCalls
  cases hb : file.arrayBuffer with
  | error e => simp [showStatus, processingStatus]
  | ok b =>
    cases hl : lib.load b with
    | error e => simp [showStatus, processingStatus, logCall, hl]
    | ok doc =>
      cases hc : lib.copyError doc with
      | some e => simp [showStatus, processingStatus, logCall, PDFDocumentAPI.copyPages, hc, hl, getPageCount]
      | none =>
        have hc2 := copyPages_all lib doc hc
        simp only [getPageCount] at hc2
        simp only [hl, hc, hc2, getPageCount, foldl_addPage, foldl_logCall]
        simp [showStatus, processingStatus, logCall, MergeLocals.add]

theorem mergeLoop_eq (lib : PDFDocumentAPI) (files : List File) :
    ∀ (index : Nat) (loc : MergeLocals) (s : State),
      mergeLoop lib index files loc s =
        (loopResult lib files loc,
         { s with
           statusMessage := loopStatus lib s.files.length index files s.statusMessage
           calls := s.calls ++ loopCalls lib files
           console := s.console ++ loopConsole lib files }) := by
  induction files with
  | nil => intro index loc s; simp [mergeLoop, loopResult, loopStatus, loopCalls, loopConsole]
  | cons file rest ih =>
    intro index loc s
    rw [mergeLoop, processFile_eq]
    cases hd : inputDoc lib file with
    | error e => simp [loopResult, loopStatus, loopCalls, loopConsole, hd, consoleError, failedMessage]
    | ok doc => simp [loopResult, loopStatus, loopCalls, loopConsole, hd, ih]

theorem mergeResume_eq (lib : PDFDocumentAPI) (originalText now : String) (s : State)
    (hlib : s.PDFDocument = some lib) :
    mergeResume originalText now s = (mergeEffect lib s.files now).apply originalText s := by
  unfold mergeResume mergeTry mergeEffect
  simp only [hlib, PDFDocumentAPI.create]
  cases hc : lib.createError with
  | some e => simp [MergeEffect.apply, MergeEffect.caught, showStatus, consoleError, logCall]
  | none =>
    simp only [mergeLoop_eq]
    cases hr : loopResult lib s.files { mergedPdfDoc := [], totalPages := 0 } with
    | error e =>
      simp [MergeEffect.apply, MergeEffect.caught, showStatus, consoleError, logCall, hr]
    | ok loc =>
      cases hs : lib.save loc.mergedPdfDoc with
      | error e =>
        simp [MergeEffect.apply, MergeEffect.caught, showStatus, consoleError, logCall, hr, hs]
      | ok bytes =>
        simp [MergeEffect.apply, showStatus, logCall, hr, hs]

theorem mergeBtnClick_eq (lib : PDFDocumentAPI) (now : String) (s : State)
    (hlib : s.PDFDocument = some lib) (hfiles : s.files ≠ []) :
    mergeBtnClick now s =
      { s with
        statusMessage := (mergeEffect lib s.files now).statusMessage
        downloadLink := (mergeEffect lib s.files now).downloadLink.getD s.downloadLink
        calls := s.calls ++ (mergeEffect lib s.files now).calls
        console := s.console ++ (mergeEffect lib s.files now).console
        mergeBtn := { disabled := false, textContent := s.mergeBtn.textContent }
        resetBtn := { s.resetBtn with disabled := false } } := by
  have hlen : (s.files.length == 0) = false := by
    cases h : s.files with
    | nil => exact absurd h hfiles
    | cons a l => rfl
  unfold mergeBtnClick mergeSettle mergeStart
  simp only [hlib, hlen, Option.isNone_some, Bool.or_self, Bool.false_eq_true, if_false, showStatus]
  simp only [List.getElem?_concat_length]
  rw [mergeResume_eq lib _ _ _ rfl]
  simp [MergeEffect.apply, hlen, hlib, List.eraseIdx_append_of_length_le]

theorem loopResult_of_allLoad (lib : PDFDocumentAPI) (files : List File) (docs : List Doc)
    (h : AllLoad lib files docs) :
    ∀ loc : MergeLocals, loopResult lib files loc =
      .ok { mergedPdfDoc := loc.mergedPdfDoc ++ docs.flatten
            totalPages := loc.totalPages + (docs.map List.length).sum } := by
  induction h with
  | nil => intro loc; simp [loopResult]
  | cons hd _ ih =>
    intro loc
    simp [loopResult, hd, ih, MergeLocals.add, Nat.add_assoc]

theorem allLoad_of_loopResult (lib : PDFDocumentAPI) (files : List File) :
    ∀ loc loc2 : MergeLocals, loopResult lib files loc = .ok loc2 → ∃ docs, AllLoad lib files docs := by
  induction files with
  | nil => intro _ _ _; exact ⟨[], List.Forall₂.nil⟩
  | cons file rest ih =>
    intro loc loc2 h
    rw [loopResult] at h
    cases hd : inputDoc lib file with
    | error e => simp [hd] at h
    | ok doc =>
      simp only [hd] at h
      obtain ⟨docs, hdocs⟩ := ih _ _ h
      exact ⟨doc :: docs, List.Forall₂.cons hd hdocs⟩

theorem fileCalls_isSave (lib : PDFDocumentAPI) (file : File) :
    ∀ c ∈ fileCalls lib file, c.isSave = false := by
  intro c hc
  unfold fileCalls at hc
  cases hb : file.arrayBuffer with
  | error e => simp [hb] at hc
  | ok b =>
    cases hl : lib.load b with
    | error e =>
      simp [hb, hl] at hc
      subst hc; rfl
    | ok doc =>
      cases hcp : lib.copyError doc with
      | some e =>
        simp [hb, hl, hcp] at hc
        rcases hc with rfl | rfl <;> rfl
      | none =>
        simp [hb, hl, hcp] at hc
        rcases hc with rfl | rfl | ⟨p, _, rfl⟩ <;> rfl

theorem loopCalls_isSave (lib : PDFDocumentAPI) (files : List File) :
    ∀ c ∈ loopCalls lib files, c.isSave = false := by
  induction files with
  | nil => intro c hc; simp [loopCalls] at hc
  | cons file rest ih =>
    intro c hc
    rw [loopCalls, List.mem_append] at hc
    rcases hc with hc | hc
    · exact fileCalls_isSave lib file c hc
    · cases hd : inputDoc lib file with
      | error e => simp [hd] at hc
      | ok doc => simp only [hd] at hc; exact ih c hc

theorem addedPages_map_addPage (doc : Doc) : addedPages (doc.map LibCall.addPage) = doc := by
  induction doc with
  | nil => rfl
  | cons a l ih =>
    rw [List.map_cons, addedPages, List.filterMap_cons]
    change a :: addedPages _ = _
    rw [ih]

theorem addedPages_fileCalls (lib : PDFDocumentAPI) (file : File) (doc : Doc)
    (h : inputDoc lib file = .ok doc) : addedPages (fileCalls lib file) = doc := by
  unfold inputDoc at h
  unfold fileCalls
  cases hb : file.arrayBuffer with
  | error e => simp [hb] at h
  | ok b =>
    cases hl : lib.load b with
    | error e => simp [hb, hl] at h
    | ok d =>
      cases hcp : lib.copyError d with
      | some e => simp [hb, hl, hcp] at h
      | none =>
        simp only [hb, hl, hcp, Except.ok.injEq] at h
        subst h
        simp only [hl, hcp]
        exact addedPages_map_addPage d

theorem addedPages_loopCalls (lib : PDFDocumentAPI) (files : List File) (docs : List Doc)
    (h : AllLoad lib files docs) : addedPages (loopCalls lib files) = docs.flatten := by
  induction h with
  | nil => rfl
  | cons hd _ ih =>
    rw [loopCalls]
    simp only [hd]
    rw [addedPages, List.filterMap_append]
    change addedPages _ ++ addedPages _ = _
    rw [addedPages_fileCalls lib _ _ hd, ih, List.flatten_cons]

theorem loopConsole_of_allLoad (lib : PDFDocumentAPI) (files : List File) (docs : List Doc)
    (h : AllLoad lib files docs) : loopConsole lib files = [] := by
  induction h with
  | nil => rfl
  | cons hd _ ih => simp [loopConsole, hd, ih]

/-- The loop on a list whose first failing file is `file`. -/
theorem loop_first_failure (lib : PDFDocumentAPI) (pre : List File) (docs : List Doc)
    (file : File) (cause : String) (post : List File)
    (hpre : AllLoad lib pre docs) (hfile : inputDoc lib file = .error cause) :
    ∀ loc : MergeLocals,
      loopResult lib (pre ++ file :: post) loc = .error (failedMessage file.name) ∧
      loopCalls lib (pre ++ file :: post) = loopCalls lib pre ++ fileCalls lib file ∧
      loopConsole lib (pre ++ file :: post) = [("Error processing " ++ file.name ++ ":", cause)] := by
  induction hpre with
  | nil => intro loc; simp [loopResult, loopCalls, loopConsole, hfile]
  | cons hd _ ih =>
    intro loc
    obtain ⟨h1, h2, h3⟩ := ih (loc.add _)
    refine ⟨?_, ?_, ?_⟩
    · simpa [loopResult, hd] using h1
    · simp [loopCalls, hd, h2]
    · simpa [loopConsole, hd] using h3

theorem mergeEffect_of_allLoad (lib : PDFDocumentAPI) (files : List File) (docs : List Doc)
    (now : String) (hcreate : lib.createError = none) (hload : AllLoad lib files docs) :
    (mergeEffect lib files now).calls =
        LibCall.create :: loopCalls lib files ++ [LibCall.save docs.flatten] ∧
      ∀ bytes, lib.save docs.flatten = .ok bytes →
        mergeEffect lib files now =
          { statusMessage :=
              { textContent := "Success! Merged " ++ toString files.length ++ " files (" ++
                  toString (docs.map List.length).sum ++ " pages)"
                className := "success" }
            downloadLink := some
              { href := .object bytes "application/pdf"
                download := "merged_" ++ now ++ ".pdf"
                display := "inline-block" }
            calls := LibCall.create :: loopCalls lib files ++ [LibCall.save docs.flatten]
            console := [] } := by
  have hr := loopResult_of_allLoad lib files docs hload { mergedPdfDoc := [], totalPages := 0 }
  simp only [List.nil_append, Nat.zero_add] at hr
  have hc := loopConsole_of_allLoad lib files docs hload
  unfold mergeEffect
  simp only [hcreate, hr]
  constructor
  · cases hs : lib.save docs.flatten with
    | error e => simp [MergeEffect.caught]
    | ok bytes => simp
  · intro bytes hs
    simp [hs, hc]

theorem mergeEffect_first_failure (lib : PDFDocumentAPI) (pre : List File) (docs : List Doc)
    (file : File) (cause : String) (post : List File) (now : String)
    (hcreate : lib.createError = none)
    (hpre : AllLoad lib pre docs) (hfile : inputDoc lib file = .error cause) :
    mergeEffect lib (pre ++ file :: post) now =
      { statusMessage :=
          { textContent :=
              "Error: " ++ ("Failed to process \"" ++ file.name ++ "\". It may be corrupted.")
            className := "error" }
        downloadLink := none
        calls := LibCall.create :: (loopCalls lib pre ++ fileCalls lib file)
        console := [("Error processing " ++ file.name ++ ":", cause),
          ("Merge failed:", "Failed to process \"" ++ file.name ++ "\". It may be corrupted.")] } := by
  obtain ⟨h1, h2, h3⟩ := loop_first_failure lib pre docs file cause post hpre hfile
    { mergedPdfDoc := [], totalPages := 0 }
  unfold mergeEffect
  simp [hcreate, h1, h2, h3, MergeEffect.caught, failedMessage]

/-- C1: for files that all load and copy, the merge handler creates a document,
appends with `addPage` exactly the pages of the inputs, each input's pages in
their own order and the inputs in file-list order, and hands `save` the
concatenation of the inputs' page lists. -/
theorem merge_output_is_concatenation (lib : PDFDocumentAPI) (now : String) (s : State)
    (docs : List Doc) (hlib : s.PDFDocument = some lib) (hcreate : lib.createError = none)
    (hfiles : s.files ≠ []) (hload : AllLoad lib s.files docs) :
    ∃ mid, (mergeBtnClick now s).calls =
        s.calls ++ LibCall.create :: mid ++ [LibCall.save docs.flatten] ∧
      addedPages mid = docs.flatten ∧ ∀ c ∈ mid, c.isSave = false := by
  refine ⟨loopCalls lib s.files, ?_, addedPages_loopCalls lib _ _ hload, loopCalls_isSave lib _⟩
  rw [mergeBtnClick_eq lib now s hlib hfiles]
  simp [(mergeEffect_of_allLoad lib s.files docs now hcreate hload).1]

/-- The scenario of C1: `a.pdf` with two pages and `b.pdf` with three give the
pages a1, a2, b1, b2, b3. -/
theorem merge_output_is_concatenation_sample :
    ∃ mid, (mergeBtnClick "2024-05-01" (sampleState sampleLib [aPdf, bPdf])).calls =
        (sampleState sampleLib [aPdf, bPdf]).calls ++
          LibCall.create :: mid ++ [LibCall.save ["a1", "a2", "b1", "b2", "b3"]] ∧
      addedPages mid = ["a1", "a2", "b1", "b2", "b3"] ∧ ∀ c ∈ mid, c.isSave = false :=
  merge_output_is_concatenation sampleLib "2024-05-01" (sampleState sampleLib [aPdf, bPdf])
    [["a1", "a2"], ["b1", "b2", "b3"]] rfl rfl (List.cons_ne_nil _ _)
    (List.Forall₂.cons rfl (List.Forall₂.cons rfl List.Forall₂.nil))

/-- C2: when every input is processed and the save succeeds, the status reports
the number of files and as `totalPages` the sum of the inputs' page counts, which
is the number of pages of the document saved behind the download link; for
single-page inputs it is the number of files. -/
theorem totalPages_is_sum (lib : PDFDocumentAPI) (now : String) (s : State)
    (docs : List Doc) (bytes : Bytes) (hlib : s.PDFDocument = some lib)
    (hcreate : lib.createError = none) (hfiles : s.files ≠ [])
    (hload : AllLoad lib s.files docs) (hsave : lib.save docs.flatten = .ok bytes) :
    (mergeBtnClick now s).statusMessage =
        { textContent := "Success! Merged " ++ toString s.files.length ++ " files (" ++
            toString (docs.map List.length).sum ++ " pages)"
          className := "success" } ∧
      (docs.map List.length).sum = docs.flatten.length ∧
      (mergeBtnClick now s).downloadLink.href = .object bytes "application/pdf" ∧
      ((∀ doc ∈ docs, doc.length = 1) → (docs.map List.length).sum = s.files.length) := by
  rw [mergeBtnClick_eq lib now s hlib hfiles]
  rw [(mergeEffect_of_allLoad lib s.files docs now hcreate hload).2 bytes hsave]
  refine ⟨rfl, (List.length_flatten docs).symm, rfl, ?_⟩
  intro h1
  have hlen : s.files.length = docs.length := List.Forall₂.length_eq hload
  rw [hlen]
  clear hload hsave hlen
  induction docs with
  | nil => rfl
  | cons d ds ih =>
    have hd : d.length = 1 := h1 d (List.mem_cons_self _ _)
    have := ih (fun doc hdoc => h1 doc (List.mem_cons_of_mem _ hdoc))
    simp [hd, this, Nat.add_comm]

/-- The scenario of C2: two pages and three pages give `totalPages` 5. -/
theorem totalPages_is_sum_sample :
    (mergeBtnClick "2024-05-01" (sampleState sampleLib [aPdf, bPdf])).statusMessage =
        { textContent := "Success! Merged 2 files (5 pages)", className := "success" } ∧
      (5 : Nat) = ["a1", "a2", "b1", "b2", "b3"].length ∧
      (mergeBtnClick "2024-05-01" (sampleState sampleLib [aPdf, bPdf])).downloadLink.href =
        .object [2, 2, 2, 2, 2] "application/pdf" :=
  have h := totalPages_is_sum sampleLib "2024-05-01" (sampleState sampleLib [aPdf, bPdf])
    [["a1", "a2"], ["b1", "b2", "b3"]] [2, 2, 2, 2, 2] rfl rfl (List.cons_ne_nil _ _)
    (List.Forall₂.cons rfl (List.Forall₂.cons rfl List.Forall₂.nil)) rfl
  ⟨h.1, h.2.1, h.2.2.1⟩

/-- With every input loaded and copied the merge still fails when `save`
rejects: the claim C3 as stated, that the merge succeeds if and only if every
input loads and has its pages copied, does not hold. -/
theorem merge_fails_though_all_load :
    AllLoad sampleLibSaveRejects (sampleState sampleLibSaveRejects [aPdf]).files [["a1", "a2"]] ∧
      (mergeBtnClick "2024-05-01" (sampleState sampleLibSaveRejects [aPdf])).statusMessage =
        { textContent := "Error: Failed to serialize the document", className := "error" } ∧
      (mergeBtnClick "2024-05-01" (sampleState sampleLibSaveRejects [aPdf])).downloadLink =
        (sampleState sampleLibSaveRejects [aPdf]).downloadLink ∧
      ¬ ((mergeBtnClick "2024-05-01"
            (sampleState sampleLibSaveRejects [aPdf])).statusMessage.className = "success" ↔
          ∃ docs, AllLoad sampleLibSaveRejects (sampleState sampleLibSaveRejects [aPdf]).files docs) := by
  have hall : AllLoad sampleLibSaveRejects (sampleState sampleLibSaveRejects [aPdf]).files
      [["a1", "a2"]] := List.Forall₂.cons rfl List.Forall₂.nil
  refine ⟨hall, by decide, by decide, ?_⟩
  intro h
  have h2 := h.mpr ⟨_, hall⟩
  revert h2
  decide

/-- C3, amended: for a non-empty file list and a library whose `create` succeeds,
the merge succeeds if and only if every input loads and has its pages copied and
the `save` of the concatenation succeeds; and if `file` is the first input that
fails, the status is the error naming `file.name`, the download link is as it
was, `save` is not called, and the library calls are those of the merge of the
list cut after `file`. -/
theorem merge_succeeds_iff (lib : PDFDocumentAPI) (now : String) (s : State)
    (hlib : s.PDFDocument = some lib) (hcreate : lib.createError = none)
    (hfiles : s.files ≠ []) :
    ((mergeBtnClick now s).statusMessage.className = "success" ↔
        ∃ docs bytes, AllLoad lib s.files docs ∧ lib.save docs.flatten = .ok bytes) ∧
      ∀ (pre : List File) (docs : List Doc) (file : File) (cause : String) (post : List File),
        s.files = pre ++ file :: post → AllLoad lib pre docs → inputDoc lib file = .error cause →
          (mergeBtnClick now s).statusMessage =
              { textContent :=
                  "Error: " ++ ("Failed to process \"" ++ file.name ++ "\". It may be corrupted.")
                className := "error" } ∧
            (mergeBtnClick now s).downloadLink = s.downloadLink ∧
            ∃ new, (mergeBtnClick now s).calls = s.calls ++ new ∧
              (∀ c ∈ new, c.isSave = false) ∧
              (mergeBtnClick now { s with files := pre ++ [file] }).calls = s.calls ++ new := by
  constructor
  · rw [mergeBtnClick_eq lib now s hlib hfiles]
    constructor
    · intro h
      simp only [mergeEffect, hcreate] at h
      cases hr : loopResult lib s.files { mergedPdfDoc := [], totalPages := 0 } with
      | error e => simp [hr, MergeEffect.caught] at h
      | ok loc =>
        obtain ⟨docs, hdocs⟩ := allLoad_of_loopResult lib s.files _ _ hr
        have hr2 := loopResult_of_allLoad lib s.files docs hdocs { mergedPdfDoc := [], totalPages := 0 }
        rw [hr] at hr2
        simp only [List.nil_append, Nat.zero_add, Except.ok.injEq] at hr2
        subst hr2
        cases hs : lib.save docs.flatten with
        | error e => simp [hr, hs, MergeEffect.caught] at h
        | ok bytes => exact ⟨docs, bytes, hdocs, hs⟩
    · rintro ⟨docs, bytes, hdocs, hs⟩
      simp [(mergeEffect_of_allLoad lib s.files docs now hcreate hdocs).2 bytes hs]
  · intro pre docs file cause post hsplit hpre hfile
    have hne : pre ++ [file] ≠ [] := by simp
    rw [mergeBtnClick_eq lib now s hlib hfiles,
      mergeBtnClick_eq lib now { s with files := pre ++ [file] } hlib hne, hsplit,
      mergeEffect_first_failure lib pre docs file cause post now hcreate hpre hfile,
      mergeEffect_first_failure lib pre docs file cause [] now hcreate hpre hfile]
    refine ⟨rfl, rfl, LibCall.create :: (loopCalls lib pre ++ fileCalls lib file), rfl, ?_, rfl⟩
    intro c hc
    rcases List.mem_cons.mp hc with rfl | hc
    · rfl
    · rcases List.mem_append.mp hc with hc | hc
      · exact loopCalls_isSave lib pre c hc
      · exact fileCalls_isSave lib file c hc

/-- The amended C3 on three files, the second of which does not parse: the
error names `bad.pdf`, the link is untouched and nothing is done for `b.pdf`. -/
theorem merge_succeeds_iff_sample :
    (mergeBtnClick "2024-05-01" (sampleState sampleLib [aPdf, badPdf, bPdf])).statusMessage =
        { textContent := "Error: " ++ ("Failed to process \"" ++ "bad.pdf" ++ "\". It may be corrupted.")
          className := "error" } ∧
      (mergeBtnClick "2024-05-01" (sampleState sampleLib [aPdf, badPdf, bPdf])).downloadLink =
        (sampleState sampleLib [aPdf, badPdf, bPdf]).downloadLink ∧
      ∃ new, (mergeBtnClick "2024-05-01" (sampleState sampleLib [aPdf, badPdf, bPdf])).calls =
          (sampleState sampleLib [aPdf, badPdf, bPdf]).calls ++ new ∧
        (∀ c ∈ new, c.isSave = false) ∧
        (mergeBtnClick "2024-05-01"
          { sampleState sampleLib [aPdf, badPdf, bPdf] with files := [aPdf] ++ [badPdf] }).calls =
          (sampleState sampleLib [aPdf, badPdf, bPdf]).calls ++ new :=
  (merge_succeeds_iff sampleLib "2024-05-01" (sampleState sampleLib [aPdf, badPdf, bPdf])
    rfl rfl (List.cons_ne_nil _ _)).2 [aPdf] [["a1", "a2"]] badPdf "No PDF header found" [bPdf]
    rfl (List.Forall₂.cons rfl List.Forall₂.nil) rfl

/-- Two merges that fail on the same file for different causes show the same
error: the error surfaced does not carry the cause, against claim C4. -/
theorem merge_error_hides_cause :
    inputDoc (sampleLibLoadRejects "No PDF header found") aPdf = .error "No PDF header found" ∧
      inputDoc (sampleLibLoadRejects "Input document is encrypted") aPdf =
        .error "Input document is encrypted" ∧
      (mergeBtnClick "2024-05-01"
          (sampleState (sampleLibLoadRejects "No PDF header found") [aPdf])).statusMessage =
        (mergeBtnClick "2024-05-01"
          (sampleState (sampleLibLoadRejects "Input document is encrypted") [aPdf])).statusMessage ∧
      (mergeBtnClick "2024-05-01"
          (sampleState (sampleLibLoadRejects "No PDF header found") [aPdf])).statusMessage.textContent =
        "Error: Failed to process \"a.pdf\". It may be corrupted." :=
  ⟨rfl, rfl, by decide, by decide⟩

/-- C4, amended: when `file` is the first input that fails, with cause `cause`,
the error shown carries the label `file.name` and a fixed text, not the cause;
the cause goes to `console.error` together with the label. -/
theorem merge_error_names_label_logs_cause (lib : PDFDocumentAPI) (now : String) (s : State)
    (pre : List File) (docs : List Doc) (file : File) (cause : String) (post : List File)
    (hlib : s.PDFDocument = some lib) (hcreate : lib.createError = none)
    (hsplit : s.files = pre ++ file :: post) (hpre : AllLoad lib pre docs)
    (hfile : inputDoc lib file = .error cause) :
    (mergeBtnClick now s).statusMessage.textContent =
        "Error: " ++ ("Failed to process \"" ++ file.name ++ "\". It may be corrupted.") ∧
      (mergeBtnClick now s).console = s.console ++
        [("Error processing " ++ file.name ++ ":", cause),
         ("Merge failed:", "Failed to process \"" ++ file.name ++ "\". It may be corrupted.")] := by
  have hfiles : s.files ≠ [] := by rw [hsplit]; simp
  rw [mergeBtnClick_eq lib now s hlib hfiles, hsplit,
    mergeEffect_first_failure lib pre docs file cause post now hcreate hpre hfile]
  exact ⟨rfl, rfl⟩

/-- The amended C4 on `a.pdf`, `bad.pdf`, `b.pdf`. -/
theorem merge_error_names_label_logs_cause_sample :
    (mergeBtnClick "2024-05-01"
        (sampleState sampleLib [aPdf, badPdf, bPdf])).statusMessage.textContent =
        "Error: Failed to process \"bad.pdf\". It may be corrupted." ∧
      (mergeBtnClick "2024-05-01" (sampleState sampleLib [aPdf, badPdf, bPdf])).console =
        [("Error processing bad.pdf:", "No PDF header found"),
         ("Merge failed:", "Failed to process \"bad.pdf\". It may be corrupted.")] :=
  merge_error_names_label_logs_cause sampleLib "2024-05-01"
    (sampleState sampleLib [aPdf, badPdf, bPdf]) [aPdf] [["a1", "a2"]] badPdf
    "No PDF header found" [bPdf] rfl rfl rfl (List.Forall₂.cons rfl List.Forall₂.nil) rfl

theorem mergeResume_frame (originalText now : String) (s : State) :
    (mergeResume originalText now s).files = s.files ∧
      (mergeResume originalText now s).PDFDocument = s.PDFDocument ∧
      (mergeResume originalText now s).pending = s.pending ∧
      (mergeResume originalText now s).mergeBtn.disabled = (s.files.length == 0) := by
  cases h : s.PDFDocument with
  | none => simp [mergeResume, mergeTry, h, showStatus, consoleError]
  | some lib => rw [mergeResume_eq lib originalText now s h]; simp [MergeEffect.apply, h]

theorem mergeSettle_frame (k : Nat) (now : String) (s : State) :
    (mergeSettle k now s).files = s.files ∧ (mergeSettle k now s).PDFDocument = s.PDFDocument := by
  unfold mergeSettle
  cases h : s.pending[k]? with
  | none => simp
  | some originalText =>
    have := mergeResume_frame originalText now { s with pending := s.pending.eraseIdx k }
    exact ⟨this.1, this.2.1⟩

theorem mergeStart_frame (s : State) :
    (mergeStart s).files = s.files ∧ (mergeStart s).PDFDocument = s.PDFDocument := by
  unfold mergeStart
  split <;> simp [showStatus]

theorem mergeBtnClick_guard (now : String) (s : State)
    (h : s.files = [] ∨ s.PDFDocument = none) :
    mergeBtnClick now s = s ∧ mergeStart s = s ∧ step s .mergeClick = s := by
  have hg : (s.files.length == 0 || s.PDFDocument.isNone) = true := by
    rcases h with h | h <;> simp [h]
  have hs : mergeStart s = s := by simp [mergeStart, hg]
  refine ⟨by simp [mergeBtnClick, hg], hs, ?_⟩
  simp only [step, hs, ite_self]

theorem step_PDFDocument (s : State) (e : Event) (he : e.isLibraryInit = false) :
    (step s e).PDFDocument = s.PDFDocument := by
  cases e with
  | libraryInit a b => simp [Event.isLibraryInit] at he
  | change selected => simp [step, pdfInputChange, showStatus, updateUI]
  | dragover => rfl
  | dragleave => rfl
  | drop dropped => simp [step, dropZoneDrop, showStatus, updateUI]
  | resetClick =>
    simp only [step]
    split
    · rfl
    · simp [resetApp, showStatus, updateUI]
  | mergeClick =>
    simp only [step]
    split
    · rfl
    · exact (mergeStart_frame s).2
  | mergeDone k now => exact (mergeSettle_frame k now s).2

theorem run_PDFDocument (events : List Event) :
    ∀ s : State, (∀ e ∈ events, e.isLibraryInit = false) →
      (run s events).PDFDocument = s.PDFDocument := by
  induction events with
  | nil => intro s _; rfl
  | cons e es ih =>
    intro s h
    have h1 := ih (step s e) (fun e2 he2 => h e2 (List.mem_cons_of_mem _ he2))
    have h2 := step_PDFDocument s e (h e (List.mem_cons_self _ _))
    simp only [run, List.foldl_cons] at h1 ⊢
    rw [h1, h2]

theorem initializePDFLibrary_failed (a b : Option PDFDocumentAPI) (s : State)
    (hfail : selfTestPasses a b = false) :
    (initializePDFLibrary a b s).PDFDocument = s.PDFDocument := by
  unfold selfTestPasses at hfail
  unfold initializePDFLibrary
  cases hw : (a <|> b) with
  | none => simp [initializeCatch, showStatus, consoleError]
  | some lib =>
    simp only [hw] at hfail
    cases hc : lib.create with
    | error e => simp [hc, initializeCatch, showStatus, consoleError, logCall]
    | ok testDoc =>
      simp only [hc] at hfail
      cases hs : lib.save testDoc with
      | error e => simp [hc, hs, initializeCatch, showStatus, consoleError, logCall]
      | ok bytes => simp [hs] at hfail

theorem initializePDFLibrary_handle (a b : Option PDFDocumentAPI) (s : State)
    (h : ∀ lib, s.PDFDocument = some lib → lib.createError = none) :
    ∀ lib, (initializePDFLibrary a b s).PDFDocument = some lib → lib.createError = none := by
  intro lib
  unfold initializePDFLibrary
  cases hw : (a <|> b) with
  | none => simpa [initializeCatch, showStatus, consoleError] using h lib
  | some pdfLib =>
    cases hc : pdfLib.create with
    | error e => simpa [hc, initializeCatch, showStatus, consoleError, logCall] using h lib
    | ok testDoc =>
      cases hs : pdfLib.save testDoc with
      | error e => simpa [hc, hs, initializeCatch, showStatus, consoleError, logCall] using h lib
      | ok bytes =>
        simp only [hc, hs, showStatus, logCall, Option.some.injEq]
        intro heq
        subst heq
        unfold PDFDocumentAPI.create at hc
        cases hce : pdfLib.createError with
        | none => rfl
        | some e => simp [hce] at hc

/-- In every state the page reaches, the library handle, if set, is a library
whose `create` succeeds: it passed the self-test. -/
theorem handle_passed_self_test (dom : Dom) (events : List Event) :
    ∀ lib, (run (pageLoad dom) events).PDFDocument = some lib → lib.createError = none := by
  have key : ∀ (events : List Event) (s : State),
      (∀ lib, s.PDFDocument = some lib → lib.createError = none) →
      ∀ lib, (run s events).PDFDocument = some lib → lib.createError = none := by
    intro events
    induction events with
    | nil => intro s h; exact h
    | cons e es ih =>
      intro s h
      apply ih (step s e)
      cases he : e.isLibraryInit with
      | false => rw [step_PDFDocument s e he]; exact h
      | true =>
        cases e with
        | libraryInit a b => exact initializePDFLibrary_handle a b s h
        | _ => simp [Event.isLibraryInit] at he
  exact key events (pageLoad dom) (fun lib hl => by simp [pageLoad] at hl)

/-- C5: the merge handler invoked with an empty file list returns at its guard:
the state, with the status, the buttons, the file list, the download link and
the record of library calls, is what it was, and no invocation is left suspended. -/
theorem merge_empty_list_rejected (now : String) (s : State) (h : s.files = []) :
    mergeBtnClick now s = s ∧ mergeStart s = s ∧ step s Event.mergeClick = s :=
  mergeBtnClick_guard now s (Or.inl h)

/-- C5 on the page as loaded, where no file is selected. -/
theorem merge_empty_list_rejected_sample :
    (pageLoad sampleDom).files = [] ∧
      mergeBtnClick "2024-05-01" (pageLoad sampleDom) = pageLoad sampleDom :=
  ⟨rfl, (merge_empty_list_rejected "2024-05-01" (pageLoad sampleDom) rfl).1⟩

/-- C6: if the self-test fails, `PDFDocument` stays unset after
`initializePDFLibrary` and after any further events other than a library
initialisation, and in the state reached a merge click changes nothing: no
library call is recorded and no output is produced. -/
theorem failed_self_test_blocks_merge (a b : Option PDFDocumentAPI) (s : State)
    (events : List Event) (now : String) (hs : s.PDFDocument = none)
    (hfail : selfTestPasses a b = false) (hev : ∀ e ∈ events, e.isLibraryInit = false) :
    (run (initializePDFLibrary a b s) events).PDFDocument = none ∧
      mergeBtnClick now (run (initializePDFLibrary a b s) events) =
        run (initializePDFLibrary a b s) events ∧
      step (run (initializePDFLibrary a b s) events) Event.mergeClick =
        run (initializePDFLibrary a b s) events := by
  have h : (run (initializePDFLibrary a b s) events).PDFDocument = none := by
    rw [run_PDFDocument events _ hev, initializePDFLibrary_failed a b s hfail, hs]
  have hg := mergeBtnClick_guard now _ (Or.inr h)
  exact ⟨h, hg.1, hg.2.2⟩

/-- C6 with a library whose `create` rejects, followed by a selection, a drop and
a reset and a new selection. -/
theorem failed_self_test_blocks_merge_sample :
    selfTestPasses none (some sampleLibCreateRejects) = false ∧
      (run (initializePDFLibrary none (some sampleLibCreateRejects) (pageLoad sampleDom))
        [.change [aPdf], .drop [aPdf, bPdf], .resetClick, .change [bPdf]]).PDFDocument = none ∧
      mergeBtnClick "2024-05-01"
          (run (initializePDFLibrary none (some sampleLibCreateRejects) (pageLoad sampleDom))
            [.change [aPdf], .drop [aPdf, bPdf], .resetClick, .change [bPdf]]) =
        run (initializePDFLibrary none (some sampleLibCreateRejects) (pageLoad sampleDom))
          [.change [aPdf], .drop [aPdf, bPdf], .resetClick, .change [bPdf]] :=
  have h := failed_self_test_blocks_merge none (some sampleLibCreateRejects) (pageLoad sampleDom)
    [.change [aPdf], .drop [aPdf, bPdf], .resetClick, .change [bPdf]] "2024-05-01" rfl rfl
    (by decide)
  ⟨rfl, h.1, h.2.1⟩

theorem mergeEffect_now (lib : PDFDocumentAPI) (files : List File) (now now2 : String) :
    (mergeEffect lib files now2).statusMessage = (mergeEffect lib files now).statusMessage ∧
      (mergeEffect lib files now2).calls = (mergeEffect lib files now).calls ∧
      (mergeEffect lib files now2).console = (mergeEffect lib files now).console ∧
      ∀ link : DownloadLink,
        ((mergeEffect lib files now2).downloadLink.getD
            ((mergeEffect lib files now).downloadLink.getD link)).href =
          ((mergeEffect lib files now).downloadLink.getD link).href := by
  unfold mergeEffect
  cases hc : lib.createError with
  | some e => simp [MergeEffect.caught]
  | none =>
    cases hr : loopResult lib files { mergedPdfDoc := [], totalPages := 0 } with
    | error e => simp [MergeEffect.caught]
    | ok loc =>
      cases hs : lib.save loc.mergedPdfDoc with
      | error e => simp [hs, MergeEffect.caught]
      | ok bytes => simp [hs]

/-- C7: a merge leaves `files` and `PDFDocument` as they were, and a second merge
right after it makes the same library calls as the first, shows the same
status, total page count included, and links the same output; for inputs that
all load, the calls of each run start with `create` and end with the `save` of
the concatenation of the inputs' pages. -/
theorem merge_twice_same_output (now now2 : String) (s : State) :
    (mergeBtnClick now s).files = s.files ∧
      (mergeBtnClick now s).PDFDocument = s.PDFDocument ∧
      (mergeBtnClick now2 (mergeBtnClick now s)).statusMessage =
        (mergeBtnClick now s).statusMessage ∧
      (mergeBtnClick now2 (mergeBtnClick now s)).downloadLink.href =
        (mergeBtnClick now s).downloadLink.href ∧
      ∃ new, (mergeBtnClick now s).calls = s.calls ++ new ∧
        (mergeBtnClick now2 (mergeBtnClick now s)).calls = (mergeBtnClick now s).calls ++ new ∧
        ∀ (lib : PDFDocumentAPI) (docs : List Doc), s.PDFDocument = some lib →
          lib.createError = none → s.files ≠ [] → AllLoad lib s.files docs →
            new.head? = some LibCall.create ∧
              new.getLast? = some (LibCall.save docs.flatten) := by
  by_cases hg : s.files = [] ∨ s.PDFDocument = none
  · have h1 := (mergeBtnClick_guard now s hg).1
    have h2 := (mergeBtnClick_guard now2 s hg).1
    rw [h1, h2]
    refine ⟨rfl, rfl, rfl, rfl, [], by simp, by simp, ?_⟩
    intro lib docs hlib _ hfiles _
    rcases hg with hg | hg
    · exact absurd hg hfiles
    · rw [hlib] at hg; cases hg
  · have hfiles : s.files ≠ [] := fun h => hg (Or.inl h)
    obtain ⟨lib, hlib⟩ : ∃ lib, s.PDFDocument = some lib := by
      cases h : s.PDFDocument with
      | none => exact absurd (Or.inr h) hg
      | some lib => exact ⟨lib, rfl⟩
    have h1 := mergeBtnClick_eq lib now s hlib hfiles
    have h2 := mergeBtnClick_eq lib now2 (mergeBtnClick now s) (by rw [h1]; exact hlib)
      (by rw [h1]; exact hfiles)
    obtain ⟨e1, e2, _, e4⟩ := mergeEffect_now lib s.files now now2
    have hf : (mergeBtnClick now s).files = s.files := by rw [h1]
    refine ⟨hf, by rw [h1], ?_, ?_, (mergeEffect lib s.files now).calls, by rw [h1], ?_, ?_⟩
    · rw [h2, hf, e1, h1]
    · rw [h2, hf]
      simp only
      rw [h1]
      exact e4 s.downloadLink
    · rw [h2, hf, e2]
    · intro lib2 docs hlib2 hcreate _ hload
      have : lib2 = lib := by rw [hlib] at hlib2; exact (Option.some.inj hlib2).symm
      subst this
      rw [(mergeEffect_of_allLoad lib2 s.files docs now hcreate hload).1]
      exact ⟨rfl, List.getLast?_concat _⟩

/-- C7 on `a.pdf` and `b.pdf`: the second run shows the status of the first and
links the same output. -/
theorem merge_twice_same_output_sample :
    (mergeBtnClick "2024-05-02"
        (mergeBtnClick "2024-05-01" (sampleState sampleLib [aPdf, bPdf]))).statusMessage =
      (mergeBtnClick "2024-05-01" (sampleState sampleLib [aPdf, bPdf])).statusMessage ∧
    (mergeBtnClick "2024-05-02"
        (mergeBtnClick "2024-05-01" (sampleState sampleLib [aPdf, bPdf]))).downloadLink.href =
      (mergeBtnClick "2024-05-01" (sampleState sampleLib [aPdf, bPdf])).downloadLink.href :=
  have h := merge_twice_same_output "2024-05-01" "2024-05-02" (sampleState sampleLib [aPdf, bPdf])
  ⟨h.2.2.1, h.2.2.2.1⟩

/-- C8 on a trace of the page: after a merge is started on `a.pdf`, a drop of
`b.pdf` runs `updateUI` while the merge is suspended, which enables the merge
button; a second click then starts a second merge beside the first. -/
theorem merge_button_enabled_while_merging :
    (run (pageLoad sampleDom)
        [.libraryInit none (some sampleLib), .change [aPdf], .mergeClick]).pending =
        ["Merge PDFs"] ∧
      (run (pageLoad sampleDom)
        [.libraryInit none (some sampleLib), .change [aPdf], .mergeClick]).mergeBtn.disabled =
        true ∧
      (run (pageLoad sampleDom)
        [.libraryInit none (some sampleLib), .change [aPdf], .mergeClick,
          .drop [bPdf]]).pending = ["Merge PDFs"] ∧
      (run (pageLoad sampleDom)
        [.libraryInit none (some sampleLib), .change [aPdf], .mergeClick,
          .drop [bPdf]]).mergeBtn.disabled = false ∧
      (run (pageLoad sampleDom)
        [.libraryInit none (some sampleLib), .change [aPdf], .mergeClick,
          .drop [bPdf], .mergeClick]).pending = ["Merge PDFs", "Merging..."] := by
  decide

theorem consistent_step (s : State) (e : Event) (h : Consistent s) : Consistent (step s e) := by
  obtain ⟨hp, hb⟩ := h
  cases e with
  | libraryInit a b =>
    simp only [step, initializePDFLibrary]
    cases (a <|> b) with
    | none => exact ⟨hp, by simp [initializeCatch, showStatus, consoleError]⟩
    | some lib =>
      simp only
      cases lib.create with
      | error e => exact ⟨hp, by simp [initializeCatch, showStatus, consoleError, logCall]⟩
      | ok testDoc =>
        simp only
        cases lib.save testDoc with
        | error e => exact ⟨hp, by simp [initializeCatch, showStatus, consoleError, logCall]⟩
        | ok bytes =>
          refine ⟨by simp [showStatus, logCall], ?_⟩
          intro hd
          exact ⟨(hb hd).1, by simp [showStatus, logCall]⟩
  | change selected =>
    refine ⟨hp, ?_⟩
    simp only [step, pdfInputChange, showStatus, updateUI]
    intro hd
    simpa [Option.ne_none_iff_isSome] using hd
  | dragover => exact ⟨hp, hb⟩
  | dragleave => exact ⟨hp, hb⟩
  | drop dropped =>
    refine ⟨hp, ?_⟩
    simp only [step, dropZoneDrop, showStatus, updateUI]
    intro hd
    simpa [Option.ne_none_iff_isSome] using hd
  | resetClick =>
    simp only [step]
    split
    · exact ⟨hp, hb⟩
    · exact ⟨hp, by simp [resetApp, showStatus, updateUI]⟩
  | mergeClick =>
    simp only [step]
    split
    · exact ⟨hp, hb⟩
    · unfold mergeStart
      split
      · exact ⟨hp, hb⟩
      · rename_i hg
        refine ⟨?_, by simp [showStatus]⟩
        intro _
        simp only [showStatus]
        intro hn
        simp [hn] at hg
  | mergeDone k now =>
    simp only [step, mergeSettle]
    cases hk : s.pending[k]? with
    | none => exact ⟨hp, hb⟩
    | some originalText =>
      have hne : s.pending ≠ [] := by
        intro hn
        rw [hn] at hk
        simp at hk
      have hlib := hp hne
      obtain ⟨f1, f2, _, f4⟩ :=
        mergeResume_frame originalText now { s with pending := s.pending.eraseIdx k }
      refine ⟨fun _ => by rw [f2]; exact hlib, ?_⟩
      intro hd
      rw [f4] at hd
      rw [f1, f2]
      refine ⟨?_, hlib⟩
      intro hn
      have hn2 : s.files = [] := hn
      simp [hn2] at hd

theorem consistent_run (events : List Event) :
    ∀ s : State, Consistent s → Consistent (run s events) := by
  induction events with
  | nil => intro s h; exact h
  | cons e es ih => intro s h; exact ih (step s e) (consistent_step s e h)

/-- C9: from a page loaded with the merge button disabled, after any sequence
of events, if the merge button is enabled then files are selected and the
library handle is set. -/
theorem merge_enabled_implies_ready (dom : Dom) (events : List Event)
    (hdis : dom.mergeBtn.disabled = true)
    (hen : (run (pageLoad dom) events).mergeBtn.disabled = false) :
    (run (pageLoad dom) events).files ≠ [] ∧ (run (pageLoad dom) events).PDFDocument ≠ none := by
  have h0 : Consistent (pageLoad dom) := by
    constructor
    · intro h; exact absurd rfl h
    · intro h
      have : dom.mergeBtn.disabled = false := h
      rw [hdis] at this
      cases this
  exact (consistent_run events (pageLoad dom) h0).2 hen

/-- C9 on a trace with a merge that is started and completes. -/
theorem merge_enabled_implies_ready_sample :
    (run (pageLoad sampleDom)
        [.libraryInit none (some sampleLib), .change [aPdf, bPdf], .mergeClick,
          .mergeDone 0 "2024-05-01"]).mergeBtn.disabled = false ∧
      (run (pageLoad sampleDom)
        [.libraryInit none (some sampleLib), .change [aPdf, bPdf], .mergeClick,
          .mergeDone 0 "2024-05-01"]).files ≠ [] ∧
      (run (pageLoad sampleDom)
        [.libraryInit none (some sampleLib), .change [aPdf, bPdf], .mergeClick,
          .mergeDone 0 "2024-05-01"]).PDFDocument ≠ none :=
  ⟨by decide,
    merge_enabled_implies_ready sampleDom
      [.libraryInit none (some sampleLib), .change [aPdf, bPdf], .mergeClick,
        .mergeDone 0 "2024-05-01"] rfl (by decide)⟩

/-- C10: after a drop, `files` is the list of the dropped files whose type is
`application/pdf`, in the order in which they were dropped and whatever `files`
was before, and the status reports the length of that list. -/
theorem drop_keeps_pdf_files (dropped : List File) (s : State) :
    (dropZoneDrop dropped s).files =
        dropped.filter (fun file => file.type == "application/pdf") ∧
      (dropZoneDrop dropped s).files.Sublist dropped ∧
      (∀ file, file ∈ (dropZoneDrop dropped s).files ↔
        file ∈ dropped ∧ file.type = "application/pdf") ∧
      (dropZoneDrop dropped s).statusMessage.textContent =
        toString (dropped.filter (fun file => file.type == "application/pdf")).length ++
          " PDF(s) selected" ∧
      step s (Event.drop dropped) = dropZoneDrop dropped s := by
  have h : (dropZoneDrop dropped s).files =
      dropped.filter (fun file => file.type == "application/pdf") := by
    simp [dropZoneDrop, showStatus, updateUI]
  refine ⟨h, ?_, ?_, ?_, rfl⟩
  · rw [h]; exact List.filter_sublist _
  · intro file; rw [h]; simp [List.mem_filter]
  · simp [dropZoneDrop, showStatus, updateUI]

/-- C10 on a drop of `a.pdf`, `notes.txt` and `b.pdf` over a selection of
`bad.pdf`: the two PDF files remain, in their order, and the status counts two. -/
theorem drop_keeps_pdf_files_sample :
    (dropZoneDrop [aPdf, notesTxt, bPdf] (sampleState sampleLib [badPdf])).files =
        [aPdf, bPdf] ∧
      (dropZoneDrop [aPdf, notesTxt, bPdf]
        (sampleState sampleLib [badPdf])).statusMessage.textContent = "2 PDF(s) selected" :=
  have h := drop_keeps_pdf_files [aPdf, notesTxt, bPdf] (sampleState sampleLib [badPdf])
  ⟨h.1, h.2.2.2.1⟩

end PDFMerger
